import Mathlib

/-!
# Property Environmental Report — verification of the core pipeline

Shallow embedding of `main.py` (Property Report API): address
normalization (`strip_unit`), geodesic helpers (`haversine`,
`cardinal_direction`, `_bounding_box`), the two source adapters
(`fetch_epa_echo`, `fetch_usgs`), the geocode client
(`geocode_address`) and the `/report` aggregator.

Modelling conventions:
* Python machine floats are modelled as exact rationals (`ℚ`) in the
  data pipeline and as real numbers (`ℝ`) in the trigonometric
  helpers; `round(x, n)` is modelled as exact round-half-to-even on
  the mathematical value.
* The aggregator is parametrised by the distance, bearing and float
  formatting functions (`dist`, `dir`, `fmt`); in the source these
  are `haversine`, `cardinal_direction` and Python's float `repr`
  (an injective, pipe-free rendering of floats).
* Fallible HTTP calls are modelled by `Except` inputs carrying either
  a transport-level failure or the decoded body.
* Python exceptions escaping a function are modelled by `Except PyError`.
-/

/-! ## Character helpers (Python `re` classes and `str` methods) -/

/-- Python `\s` for the ASCII whitespace that occurs in addresses
(`' '`, `'\t'`, `'\n'`, `'\r'`; the rarer `\x0b`/`\x0c` are elided). -/
def isSpaceChar (c : Char) : Bool := c.isWhitespace

/-- Python `\d` (ASCII digits). -/
def isDigitChar (c : Char) : Bool := c.isDigit

/-- The regex class `[A-Za-z]`. -/
def isAsciiLetter (c : Char) : Bool := c.isAlpha

/-- The regex class `[.\s:]` separating a unit keyword from its value. -/
def isSepChar (c : Char) : Bool := c = '.' || c = ':' || isSpaceChar c

/-- The regex class `[A-Za-z0-9-]` for a unit value such as `200` or `4-B`. -/
def isValueChar (c : Char) : Bool := c.isAlphanum || c = '-'

/-- Python `str.strip()` on a character list. -/
def pyStrip (s : List Char) : List Char :=
  ((s.dropWhile isSpaceChar).reverse.dropWhile isSpaceChar).reverse

/-- Python `str.rstrip(",")` on a character list. -/
def pyRstripComma (s : List Char) : List Char :=
  (s.reverse.dropWhile (· = ',')).reverse

/-! ## `UNIT_PATTERNS` and `strip_unit` (main.py lines 99–115)

The compiled pattern is

    \s* (?: \#\s*\d+[A-Za-z]?
          | (?:Suite|Ste|Unit|Apt|Apartment|Room|Rm|Floor|Fl|Bldg|Building)
            [.\s:]+[A-Za-z0-9-]+ )
    (?=\s*,|\s*$)

with `IGNORECASE`.  `re.sub` scans left to right, takes the leftmost
match (alternatives tried in source order, quantifiers greedy) and
replaces it by the empty string.  Greedy quantifier backtracking never
changes the outcome here because the character classes of adjacent
pieces are disjoint, so maximal munch is exact. -/

/-- The lookahead `(?=\s*,|\s*$)`: optional whitespace followed by a
comma or the end of the string. -/
def unitLookahead (s : List Char) : Bool :=
  match s.dropWhile isSpaceChar with
  | [] => true
  | c :: _ => c = ','

/-- The unit keywords, lowercased, in the alternation order of the
source pattern. -/
def unitKeywords : List (List Char) :=
  ["suite".data, "ste".data, "unit".data, "apt".data, "apartment".data,
   "room".data, "rm".data, "floor".data, "fl".data, "bldg".data,
   "building".data]

/-- Case-insensitive literal match: returns the remainder of `s` after
the keyword `kw` (given lowercased), or `none`. -/
def matchKeywordCI : List Char → List Char → Option (List Char)
  | [], s => some s
  | _ :: _, [] => none
  | k :: ks, c :: cs => if c.toLower = k then matchKeywordCI ks cs else none

/-- The alternative `\#\s*\d+[A-Za-z]?` followed by the lookahead;
returns the remainder after the matched span. -/
def tryHashAlt (s : List Char) : Option (List Char) :=
  match s with
  | '#' :: rest =>
    let afterWs := rest.dropWhile isSpaceChar
    let digits := afterWs.takeWhile isDigitChar
    let afterDigits := afterWs.dropWhile isDigitChar
    if digits.isEmpty then none
    else
      match afterDigits with
      | c :: cs =>
        if isAsciiLetter c && unitLookahead cs then some cs
        else if unitLookahead afterDigits then some afterDigits
        else none
      | [] => if unitLookahead [] then some [] else none
  | _ => none

/-- The keyword alternative `KEYWORD[.\s:]+[A-Za-z0-9-]+` followed by
the lookahead, for one keyword; returns the remainder after the span. -/
def tryKeywordRest (afterKw : List Char) : Option (List Char) :=
  let seps := afterKw.takeWhile isSepChar
  let afterSeps := afterKw.dropWhile isSepChar
  if seps.isEmpty then none
  else
    let val := afterSeps.takeWhile isValueChar
    let afterVal := afterSeps.dropWhile isValueChar
    if val.isEmpty then none
    else if unitLookahead afterVal then some afterVal else none

/-- The full alternation, tried at one position after the leading
`\s*` has been consumed. -/
def tryAlternatives (s : List Char) : Option (List Char) :=
  match tryHashAlt s with
  | some r => some r
  | none => unitKeywords.findSome? fun kw => (matchKeywordCI kw s).bind tryKeywordRest

/-- Attempt to match `UNIT_PATTERNS` at the head of `s`; on success
return the remainder after the matched span (the lookahead is not
consumed).  A successful match always consumes at least one
character. -/
def tryMatchAt (s : List Char) : Option (List Char) :=
  tryAlternatives (s.dropWhile isSpaceChar)

/-- One pass of `re.sub(UNIT_PATTERNS, "", ·)`: scan left to right,
deleting each leftmost match and resuming after it.  `fuel` bounds the
recursion; every successful match consumes at least one character, so
`fuel = s.length` is exact. -/
def subUnitPatterns : Nat → List Char → List Char
  | 0, s => s
  | _ + 1, [] => []
  | fuel + 1, c :: cs =>
    match tryMatchAt (c :: cs) with
    | some rest => subUnitPatterns fuel rest
    | none => c :: subUnitPatterns fuel cs

/-- `strip_unit` (main.py line 113): remove unit / suite qualifiers,
then `.strip().rstrip(",")`. -/
def strip_unit (address : String) : String :=
  String.mk (pyRstripComma (pyStrip (subUnitPatterns address.data.length address.data)))

/-! ## GeoMath over the reals (main.py lines 118–149, 292–303)

Python's `round(x, n)` (round-half-to-even on the mathematical value)
and `math.atan2` are modelled explicitly. -/

open Classical in
/-- Python `round(x)` as an integer: round half to even. -/
noncomputable def pyRoundInt (x : ℝ) : ℤ :=
  if Int.fract x = 1 / 2 then (if Even ⌊x⌋ then ⌊x⌋ else ⌊x⌋ + 1) else round x

/-- Python `round(x, n)`: round half to even at `n` decimal digits. -/
noncomputable def pyRoundTo (n : ℕ) (x : ℝ) : ℝ :=
  (pyRoundInt (x * 10 ^ n) : ℝ) / 10 ^ n

/-- Python float `%` (used for `(angle + 360) % 360`). -/
noncomputable def pyFloatMod (x y : ℝ) : ℝ := x - y * ⌊x / y⌋

/-- `math.radians`. -/
noncomputable def radians (x : ℝ) : ℝ := x * Real.pi / 180

/-- `math.degrees`. -/
noncomputable def degrees (x : ℝ) : ℝ := x * 180 / Real.pi

open Classical in
/-- `math.atan2 y x`, the two-argument arctangent (IEEE convention;
in particular `atan2 0 0 = 0`, as in CPython). -/
noncomputable def atan2 (y x : ℝ) : ℝ :=
  if 0 < x then Real.arctan (y / x)
  else if x < 0 then
    (if 0 ≤ y then Real.arctan (y / x) + Real.pi else Real.arctan (y / x) - Real.pi)
  else if 0 < y then Real.pi / 2
  else if y < 0 then -(Real.pi / 2)
  else 0

/-- `haversine` (main.py lines 118–134): great-circle distance in
miles, rounded to 2 decimals. -/
noncomputable def haversine (lat1 lon1 lat2 lon2 : ℝ) : ℝ :=
  let R : ℝ := 3958.8
  let p1 := radians lat1
  let p2 := radians lat2
  let dp := radians (lat2 - lat1)
  let dl := radians (lon2 - lon1)
  let a := Real.sin (dp / 2) ^ 2 + Real.cos p1 * Real.cos p2 * Real.sin (dl / 2) ^ 2
  let c := 2 * atan2 (Real.sqrt a) (Real.sqrt (1 - a))
  pyRoundTo 2 (R * c)

/-- The lookup table `directions` of `cardinal_direction`. -/
def compassDirections : List String := ["N", "NE", "E", "SE", "S", "SW", "W", "NW"]

/-- `cardinal_direction` (main.py lines 137–149): 8-point compass
direction from point 1 to point 2. -/
noncomputable def cardinal_direction (lat1 lon1 lat2 lon2 : ℝ) : String :=
  let dlat := lat2 - lat1
  let dlon := lon2 - lon1
  let angle := pyFloatMod (degrees (atan2 dlon dlat) + 360) 360
  let index := pyRoundInt (angle / 45) % 8
  compassDirections.getD index.toNat ""

open Classical in
/-- `_bounding_box` (main.py lines 292–303), as the quadruple
`(west, south, east, north)` whose decimal rendering the source
joins with commas. -/
noncomputable def bounding_box (lat lon radius_miles : ℝ) : ℝ × ℝ × ℝ × ℝ :=
  let lat_delta := radius_miles / 69
  let cos_lat := Real.cos (radians lat)
  let lon_delta := if 1e-6 < cos_lat then radius_miles / (69 * cos_lat) else 180
  (pyRoundTo 6 (max (lon - lon_delta) (-180)),
   pyRoundTo 6 (max (lat - lat_delta) (-90)),
   pyRoundTo 6 (min (lon + lon_delta) 180),
   pyRoundTo 6 (min (lat + lat_delta) 90))

open Classical in
/-- Modelled from the spec: the longitude delta of §4.2 — miles per
degree is `69.0 * cos(latitude)`, with a fallback of 180° when
`cos(latitude) ≤ 1e-6`. -/
noncomputable def lonDeltaSpec (lat radius_miles : ℝ) : ℝ :=
  if Real.cos (radians lat) ≤ 1e-6 then 180
  else radius_miles / (69 * Real.cos (radians lat))

/-- Modelled from the spec: clamping a value into `[lo, hi]`. -/
noncomputable def clampR (x lo hi : ℝ) : ℝ := min (max x lo) hi


/-! ## Request/response data model (main.py lines 41–89)

`RawRecord` is the common dict shape produced by both adapters and
consumed by `/report`; `Facility` and `ReportResponse` mirror the
pydantic response models. -/

/-- A raw facility/site dict as produced by an adapter. -/
structure RawRecord where
  name : String
  registry_id : String
  latitude : ℚ
  longitude : ℚ
  source : String
deriving DecidableEq

/-- The `Facility` response model. -/
structure Facility where
  name : String
  registry_id : String
  latitude : ℚ
  longitude : ℚ
  distance_miles : ℚ
  direction : String
  source : String
deriving DecidableEq

/-- The `ReportResponse` response model. -/
structure ReportResponse where
  address : String
  latitude : ℚ
  longitude : ℚ
  radius_miles : ℚ
  total_findings : ℕ
  facilities : List Facility
deriving DecidableEq

/-- A raised `fastapi.HTTPException` (status code and detail). -/
structure HTTPException where
  status_code : ℕ
  detail : String
deriving DecidableEq

/-- A transport-level failure of an upstream call: an `httpx` timeout,
any other `httpx.HTTPError` (including `raise_for_status`), or a body
that is not decodable at all (`resp.json()` raising). -/
inductive TransportError where
  | timeout
  | httpError (msg : String)
  | invalidBody
deriving DecidableEq

/-- A Python exception escaping a modelled function. -/
inductive PyError where
  | attributeError
  | typeError
  | valueError
deriving DecidableEq

/-! ## GeocodeClient (main.py lines 156–181) -/

/-- One Nominatim hit, with `lat`/`lon` already converted to numbers
(the `float(hit["lat"])` conversion of well-formed provider output). -/
structure GeoHit where
  lat : ℚ
  lon : ℚ
  display_name : String
deriving DecidableEq

/-- The dict returned by `geocode_address`. -/
structure GeocodeResult where
  original_address : String
  cleaned_address : String
  latitude : ℚ
  longitude : ℚ
  display_name : String
deriving DecidableEq

/-- How `geocode_address` can fail: by raising an `HTTPException`
itself, or by letting a transport error propagate to the endpoint. -/
inductive GeocodeFailure where
  | http (e : HTTPException)
  | transport (e : TransportError)
deriving DecidableEq

/-- `geocode_address` (main.py lines 156–181): strip the unit, reject
an empty cleaned address with a 400, reject zero provider matches with
a 404, otherwise return the first hit. -/
def geocode_address (address : String) (resp : Except TransportError (List GeoHit)) :
    Except GeocodeFailure GeocodeResult :=
  let cleaned := strip_unit address
  if cleaned = "" then
    .error (.http ⟨400, "Address became empty after removing unit/suite number. Please provide a full street address."⟩)
  else
    match resp with
    | .error e => .error (.transport e)
    | .ok [] => .error (.http ⟨404, "Could not geocode address: " ++ cleaned⟩)
    | .ok (hit :: _) => .ok ⟨address, cleaned, hit.lat, hit.lon, hit.display_name⟩

/-! ## A model of decoded JSON and the Python operations on it -/

/-- A decoded JSON value (the result of `resp.json()`). -/
inductive Json where
  | null
  | bool (b : Bool)
  | num (q : ℚ)
  | str (s : String)
  | arr (elems : List Json)
  | obj (fields : List (String × Json))

/-- Python truthiness of a decoded JSON value. -/
def Json.truthy : Json → Bool
  | .null => false
  | .bool b => b
  | .num q => q != 0
  | .str s => s != ""
  | .arr l => !l.isEmpty
  | .obj l => !l.isEmpty

/-- Python `value.get(key, dflt)`: raises `AttributeError` when the
receiver is not a dict. -/
def dictGet (j : Json) (key : String) (dflt : Json) : Except PyError Json :=
  match j with
  | .obj kvs => .ok ((kvs.lookup key).getD dflt)
  | _ => .error .attributeError

/-- Python `for x in value`: raises `TypeError` when the value is not
iterable; a string iterates over its one-character substrings, a dict
over its keys. -/
def Json.iterate : Json → Except PyError (List Json)
  | .arr xs => .ok xs
  | .str s => .ok (s.data.map fun c => .str (String.mk [c]))
  | .obj kvs => .ok (kvs.map fun kv => .str kv.1)
  | _ => .error .typeError

/-- Decimal digits to a natural number. -/
def digitsToNat (ds : List Char) : ℕ :=
  ds.foldl (fun acc c => acc * 10 + (c.toNat - '0'.toNat)) 0

/-- Python `float(s)` on a string: surrounding whitespace, an optional
sign, and `digits[.digits]` or `.digits` (the exponent and `inf`/`nan`
forms, absent from provider data, are elided). -/
def parseDecimal (s : List Char) : Option ℚ :=
  let t := pyStrip s
  let signed : Bool × List Char :=
    match t with
    | '-' :: r => (true, r)
    | '+' :: r => (false, r)
    | r => (false, r)
  let ip := signed.2.takeWhile isDigitChar
  let rest := signed.2.dropWhile isDigitChar
  let mag : Option ℚ :=
    match rest with
    | [] => if ip.isEmpty then none else some (digitsToNat ip)
    | '.' :: fr =>
      let fp := fr.takeWhile isDigitChar
      if (fr.dropWhile isDigitChar).isEmpty && !(ip.isEmpty && fp.isEmpty) then
        some ((digitsToNat ip : ℚ) + (digitsToNat fp : ℚ) / 10 ^ fp.length)
      else none
    | _ => none
  mag.map fun m => if signed.1 then -m else m

/-- Python `float(value)` on a decoded JSON value: numbers and bools
convert, strings are parsed (`ValueError` on failure), anything else
raises `TypeError`. -/
def pyFloat (j : Json) : Except PyError ℚ :=
  match j with
  | .num q => .ok q
  | .bool b => .ok (if b then 1 else 0)
  | .str s =>
    match parseDecimal s.data with
    | some q => .ok q
    | none => .error .valueError
  | _ => .error .typeError

/-- A JSON field used where the source expects a string (facility
names and registry ids); non-string provider values are not modelled
further, no claim depends on them. -/
def jsonFieldString : Json → String
  | .str s => s
  | _ => ""

/-! ## Adapter A: `fetch_epa_echo` (main.py lines 184–230)

The `try` block covers only the HTTP call and `resp.json()`; the row
extraction below it is unprotected, so a decoded body on which
`.get` / iteration fails raises out of the function. -/

/-- One iteration of the EPA row loop (main.py lines 214–228): the
row-level `try` catches only `ValueError` and `TypeError`; an
`AttributeError` from `row.get` on a non-dict row propagates. -/
def epaParseRow (row : Json) : Except PyError (Option RawRecord) :=
  let body : Except PyError (Option RawRecord) := do
    let latDflt ← dictGet row "FacLat" (.num 0)
    let fac_lat ← pyFloat (← dictGet row "Lat83" latDflt)
    let lonDflt ← dictGet row "FacLong" (.num 0)
    let fac_lon ← pyFloat (← dictGet row "Long83" lonDflt)
    if fac_lat = 0 ∧ fac_lon = 0 then
      return none
    else
      let nameDflt ← dictGet row "Name" (.str "Unknown Facility")
      let nameJ ← dictGet row "FacName" nameDflt
      let ridDflt ← dictGet row "FacId" (.str "N/A")
      let ridJ ← dictGet row "RegistryID" ridDflt
      return some ⟨jsonFieldString nameJ, jsonFieldString ridJ, fac_lat, fac_lon, "EPA_ECHO"⟩
  match body with
  | .error .valueError => .ok none
  | .error .typeError => .ok none
  | other => other

/-- `fetch_epa_echo` (main.py lines 184–230), from the transport
outcome onwards.  Any failure of the request or of `resp.json()`
yields `[]`; the subsequent row extraction can raise. -/
def fetch_epa_echo (resp : Except TransportError Json) : Except PyError (List RawRecord) :=
  match resp with
  | .error _ => .ok []
  | .ok data => do
    let results1 ← dictGet data "Results" (.obj [])
    let facA ← dictGet results1 "Facilities" (.arr [])
    let rows ←
      if facA.truthy then pure facA
      else do
        let results2 ← dictGet data "Results" (.obj [])
        let facB ← dictGet results2 "FacilityList" (.arr [])
        pure (if facB.truthy then facB else .arr [])
    let rowList ← rows.iterate
    rowList.foldlM (fun acc row => do
      match ← epaParseRow row with
      | some r => pure (acc ++ [r])
      | none => pure acc) []

/-! ## Adapter B: `fetch_usgs` (main.py lines 233–289)

The RDB text parsing uses only total string operations outside its
row-level `try`, so the function never raises; any transport failure
yields `[]`. -/

/-- Python `str.splitlines()` for newline-delimited text: split on
`'\n'`, treating it as a terminator (no trailing empty line). -/
def splitlines (s : String) : List String :=
  let parts := s.split (· = '\n')
  if parts.getLast? = some "" then parts.dropLast else parts

/-- The data-type-descriptor token test `re.match(r"^\d+[sdna]$", p)`. -/
def isDataTypeToken (s : String) : Bool :=
  let ds := s.data.takeWhile isDigitChar
  let rest := s.data.dropWhile isDigitChar
  !ds.isEmpty &&
    match rest with
    | [c] => c = 's' || c = 'd' || c = 'n' || c = 'a'
    | _ => false

/-- One USGS data row (main.py lines 273–287), given `parts` with at
least 5 fields: `ValueError` from a `float` conversion skips the row;
`(0,0)` coordinates are discarded. -/
def usgsParseDataRow (parts : List String) : Option RawRecord :=
  let site_name := parts.getD 2 ""
  match parseDecimal (parts.getD 4 "").data with
  | none => none
  | some site_lat =>
    let lonParsed : Option ℚ :=
      if 5 < parts.length then parseDecimal (parts.getD 5 "").data else some 0
    match lonParsed with
    | none => none
    | some site_lon =>
      if site_lat = 0 ∧ site_lon = 0 then none
      else some ⟨site_name.trim, (parts.getD 1 "").trim, site_lat, site_lon, "USGS"⟩

/-- The line loop of `fetch_usgs` (main.py lines 257–287): skip
comment lines, the first non-comment (header) line, and any
data-type-descriptor row; parse the remaining tab-separated rows. -/
def usgsLines : Bool → List String → List RawRecord
  | _, [] => []
  | headerSeen, line :: rest =>
    if line.startsWith "#" then usgsLines headerSeen rest
    else if !headerSeen then usgsLines true rest
    else
      let parts := line.split (· = '\t')
      if parts.all (fun p => p.trim == "" || isDataTypeToken p.trim) then usgsLines true rest
      else if parts.length < 5 then usgsLines true rest
      else
        match usgsParseDataRow parts with
        | some r => r :: usgsLines true rest
        | none => usgsLines true rest

/-- `fetch_usgs` (main.py lines 233–289), from the transport outcome
onwards. -/
def fetch_usgs (resp : Except TransportError String) : List RawRecord :=
  match resp with
  | .error _ => []
  | .ok text => usgsLines false (splitlines text)

/-! ## The `/report` aggregator (main.py lines 328–397) -/

/-- The dedup key of main.py lines 361–366: the f-string
`f"{rid}|{source}"` when the registry id is truthy and not `"N/A"`,
otherwise `f"{name}|{lat}|{lon}|{source}"`, where `fmt` renders a
float as Python string interpolation does. -/
def dedup_key (fmt : ℚ → String) (r : RawRecord) : String :=
  if r.registry_id ≠ "" ∧ r.registry_id ≠ "N/A" then
    r.registry_id ++ "|" ++ r.source
  else
    r.name ++ "|" ++ fmt r.latitude ++ "|" ++ fmt r.longitude ++ "|" ++ r.source

/-- Modelled from the spec (§4.5 step 3): the composite dedup key as a
tuple — `(external_id, source_tag)` when the external id is present
and not the `"N/A"` sentinel, otherwise
`(name, latitude, longitude, source_tag)`. -/
def specKey (r : RawRecord) : (String × String) ⊕ (String × ℚ × ℚ × String) :=
  if r.registry_id ≠ "" ∧ r.registry_id ≠ "N/A" then
    .inl (r.registry_id, r.source)
  else
    .inr (r.name, r.latitude, r.longitude, r.source)

/-- The comparison key of `facilities.sort(key=lambda f: f.distance_miles)`. -/
def facilityLe (f g : Facility) : Bool := f.distance_miles ≤ g.distance_miles

/-- The merge loop of main.py lines 359–386: deduplicate on
`dedup_key` (first occurrence wins — the key is recorded in `seen`
before the radius test), drop records farther than the radius, and
build `Facility` entries with the supplied distance and bearing
functions. -/
def processRecords (dist : ℚ → ℚ → ℚ → ℚ → ℚ) (dir : ℚ → ℚ → ℚ → ℚ → String)
    (fmt : ℚ → String) (lat lon radius : ℚ) :
    List RawRecord → List String → List Facility
  | [], _ => []
  | raw :: rest, seen =>
    let key := dedup_key fmt raw
    if key ∈ seen then processRecords dist dir fmt lat lon radius rest seen
    else
      let d := dist lat lon raw.latitude raw.longitude
      if radius < d then processRecords dist dir fmt lat lon radius rest (key :: seen)
      else
        ⟨raw.name, raw.registry_id, raw.latitude, raw.longitude, d,
         dir lat lon raw.latitude raw.longitude, raw.source⟩ ::
          processRecords dist dir fmt lat lon radius rest (key :: seen)

/-- Dedup, radius-filter and stable-sort the concatenated raw records
(main.py lines 355–388); Python's stable `list.sort` is
`List.mergeSort`. -/
def mergeAndRank (dist : ℚ → ℚ → ℚ → ℚ → ℚ) (dir : ℚ → ℚ → ℚ → ℚ → String)
    (fmt : ℚ → String) (lat lon radius : ℚ) (all_raw : List RawRecord) : List Facility :=
  (processRecords dist dir fmt lat lon radius all_raw []).mergeSort facilityLe

/-- How the `/report` endpoint can fail: with a raised/re-raised
`HTTPException`, or with an uncaught Python exception (surfaced by the
framework as a 500 server error). -/
inductive ReportFailure where
  | http (e : HTTPException)
  | uncaught (e : PyError)
deriving DecidableEq

/-- The `/report` endpoint `report` (main.py lines 328–397),
parametrised by the distance, bearing and float-formatting functions
(`haversine`, `cardinal_direction` and float interpolation in the
source) and by the three upstream outcomes. -/
def build_report (dist : ℚ → ℚ → ℚ → ℚ → ℚ) (dir : ℚ → ℚ → ℚ → ℚ → String)
    (fmt : ℚ → String) (address : String) (radius_miles : ℚ)
    (geoResp : Except TransportError (List GeoHit))
    (epaResp : Except TransportError Json)
    (usgsResp : Except TransportError String) :
    Except ReportFailure ReportResponse :=
  match geocode_address address geoResp with
  | .error (.http e) => .error (.http e)
  | .error (.transport .timeout) =>
    .error (.http ⟨504, "Geocoding service timed out. Please try again."⟩)
  | .error (.transport (.httpError msg)) =>
    .error (.http ⟨502, "Geocoding service error: " ++ msg⟩)
  | .error (.transport .invalidBody) => .error (.uncaught .valueError)
  | .ok geo =>
    match fetch_epa_echo epaResp with
    | .error e => .error (.uncaught e)
    | .ok epa_results =>
      let usgs_results := fetch_usgs usgsResp
      let all_raw := epa_results ++ usgs_results
      let sorted := mergeAndRank dist dir fmt geo.latitude geo.longitude radius_miles all_raw
      .ok ⟨geo.cleaned_address, geo.latitude, geo.longitude, radius_miles,
           sorted.length, sorted⟩

/-- The deduplicated, radius-filtered facility list of a report before
the final sort (the state at main.py line 386), as a total function of
the same inputs as `build_report`. -/
def preFacilities (dist : ℚ → ℚ → ℚ → ℚ → ℚ) (dir : ℚ → ℚ → ℚ → ℚ → String)
    (fmt : ℚ → String) (address : String) (radius_miles : ℚ)
    (geoResp : Except TransportError (List GeoHit))
    (epaResp : Except TransportError Json)
    (usgsResp : Except TransportError String) : List Facility :=
  match geocode_address address geoResp with
  | .error _ => []
  | .ok geo =>
    match fetch_epa_echo epaResp with
    | .error _ => []
    | .ok epa_results =>
      processRecords dist dir fmt geo.latitude geo.longitude radius_miles
        (epa_results ++ fetch_usgs usgsResp) []

/-! ## Claim theorems -/

/-- C6: the distance function is symmetric — `haversine` returns
exactly the same value (hence certainly within the 0.01-mile rounding
tolerance) when the two coordinates are exchanged. -/
theorem haversine_symmetric (lat1 lon1 lat2 lon2 : ℝ) :
    haversine lat1 lon1 lat2 lon2 = haversine lat2 lon2 lat1 lon1 := by
  have hsin : ∀ a b : ℝ,
      Real.sin (radians (a - b) / 2) ^ 2 = Real.sin (radians (b - a) / 2) ^ 2 := by
    intro a b
    have h : radians (a - b) / 2 = -(radians (b - a) / 2) := by
      simp only [radians]; ring
    rw [h, Real.sin_neg, neg_sq]
  simp only [haversine]
  rw [hsin lat2 lat1, hsin lon2 lon1,
    mul_comm (Real.cos (radians lat1)) (Real.cos (radians lat2))]

/-- C9: `cardinal_direction` on the zero vector (identical source and
destination) is defined and deterministically returns `"N"`, because
`atan2 0 0 = 0`. -/
theorem cardinal_direction_self (lat lon : ℝ) :
    cardinal_direction lat lon lat lon = "N" := by
  have h0 : atan2 0 0 = 0 := by simp [atan2]
  have hdeg : degrees 0 = 0 := by simp [degrees]
  have hmod : pyFloatMod (0 + 360) 360 = 0 := by
    have h1 : ((0 : ℝ) + 360) / 360 = 1 := by norm_num
    simp [pyFloatMod, h1]
  have hri : pyRoundInt 0 = 0 := by
    simp [pyRoundInt, Int.fract_zero]
  simp only [cardinal_direction, sub_self, h0, hdeg, hmod, zero_div, hri]
  rfl

/-- C3 (counterexample): contrary to the spec scenario, normalizing
`"123 Main St, Suite 200, Austin, TX"` does not return
`"123 Main St, Austin, TX"` — the comma that introduced the qualifier
is kept, leaving a doubled comma. -/
theorem strip_unit_scenario_ne :
    ¬ (strip_unit "123 Main St, Suite 200, Austin, TX" = "123 Main St, Austin, TX") := by
  decide

/-- C3 (amended): `strip_unit` removes unit/suite/apartment/floor/
building qualifiers that stand immediately before a comma or the end
of the string, but keeps the comma that preceded the qualifier, so the
scenario input yields `"123 Main St,, Austin, TX"` with a doubled
comma (a trailing qualifier leaves a trailing comma, which is then
stripped). -/
theorem strip_unit_amended :
    strip_unit "123 Main St, Suite 200, Austin, TX" = "123 Main St,, Austin, TX"
    ∧ strip_unit "123 Main St, Suite 200" = "123 Main St"
    ∧ strip_unit "10 Elm St Apt 4" = "10 Elm St"
    ∧ strip_unit "55 Oak Ave #150, Springfield" = "55 Oak Ave, Springfield"
    ∧ strip_unit "x suite: 5A, y" = "x, y"
    ∧ strip_unit "4 Rd, Unit 4-B" = "4 Rd" := by
  refine ⟨?_, ?_, ?_, ?_, ?_, ?_⟩ <;> decide

/-- C4: transport failures of either adapter are absorbed as empty
result lists — but a malformed EPA ECHO body that decodes as valid
JSON without being an object (here the empty JSON array) makes the
unprotected row extraction raise `AttributeError`, which propagates
out of `/report` as an uncaught server error instead of degrading to
an empty contribution. -/
theorem adapter_failure_absorption :
    (∀ e, fetch_epa_echo (.error e) = .ok [])
    ∧ (∀ e, fetch_usgs (.error e) = [])
    ∧ fetch_epa_echo (.ok (Json.arr [])) = .error .attributeError
    ∧ (∀ dist dir fmt,
        build_report dist dir fmt "A St" 3 (.ok [⟨30, -97, "A St, TX"⟩])
          (.ok (Json.arr [])) (.error .timeout)
          = .error (.uncaught .attributeError)) :=
  ⟨fun _ => rfl, fun _ => rfl, rfl, fun _ _ _ => rfl⟩

/-- Inversion for a successful report: the geocode and the EPA fetch
succeeded and the response fields are as assembled at main.py
lines 390–397. -/
lemma build_report_ok_elim {dist dir fmt address radius_miles geoResp epaResp usgsResp rep}
    (hrep : build_report dist dir fmt address radius_miles geoResp epaResp usgsResp = .ok rep) :
    ∃ geo epa_results,
      geocode_address address geoResp = .ok geo
      ∧ fetch_epa_echo epaResp = .ok epa_results
      ∧ rep = ⟨geo.cleaned_address, geo.latitude, geo.longitude, radius_miles,
               (mergeAndRank dist dir fmt geo.latitude geo.longitude radius_miles
                 (epa_results ++ fetch_usgs usgsResp)).length,
               mergeAndRank dist dir fmt geo.latitude geo.longitude radius_miles
                 (epa_results ++ fetch_usgs usgsResp)⟩ := by
  unfold build_report at hrep
  split at hrep
  · simp at hrep
  · simp at hrep
  · simp at hrep
  · simp at hrep
  · rename_i geo hg
    split at hrep
    · simp at hrep
    · rename_i epa hf
      refine ⟨geo, epa, hg, hf, ?_⟩
      simp only [Except.ok.injEq] at hrep
      exact hrep.symm

/-- Inversion for a successful geocode: the result carries the
original address and its cleaned form. -/
lemma geocode_ok_elim {address resp geo}
    (h : geocode_address address resp = .ok geo) :
    geo.cleaned_address = strip_unit address ∧ geo.original_address = address := by
  simp only [geocode_address] at h
  by_cases hcl : strip_unit address = ""
  · rw [if_pos hcl] at h
    exact absurd h (by simp)
  · rw [if_neg hcl] at h
    cases resp with
    | error e => exact absurd h (by simp)
    | ok hits =>
      cases hits with
      | nil => exact absurd h (by simp)
      | cons hit rest =>
        simp only [Except.ok.injEq] at h
        rw [← h]
        exact ⟨rfl, rfl⟩

/-- Every facility emitted by the merge loop survived the radius test
`if dist > radius: continue`. -/
lemma processRecords_distance_le (dist : ℚ → ℚ → ℚ → ℚ → ℚ)
    (dir : ℚ → ℚ → ℚ → ℚ → String) (fmt : ℚ → String) (lat lon radius : ℚ) :
    ∀ (l : List RawRecord) (seen : List String) (f : Facility),
      f ∈ processRecords dist dir fmt lat lon radius l seen →
      f.distance_miles ≤ radius := by
  intro l
  induction l with
  | nil => intro seen f h; simp [processRecords] at h
  | cons raw rest ih =>
    intro seen f h
    simp only [processRecords] at h
    by_cases hseen : dedup_key fmt raw ∈ seen
    · rw [if_pos hseen] at h
      exact ih seen f h
    · rw [if_neg hseen] at h
      by_cases hd : radius < dist lat lon raw.latitude raw.longitude
      · rw [if_pos hd] at h
        exact ih _ f h
      · rw [if_neg hd] at h
        rcases List.mem_cons.mp h with hf | hf
        · rw [hf]
          exact le_of_not_lt hd
        · exact ih _ f hf

/-- C1: every facility of every report produced by `build_report`
lies within the requested radius — records whose computed distance
exceeds it are discarded, whatever the adapters returned. -/
theorem report_radius_invariant (dist : ℚ → ℚ → ℚ → ℚ → ℚ)
    (dir : ℚ → ℚ → ℚ → ℚ → String) (fmt : ℚ → String)
    (address : String) (radius_miles : ℚ)
    (geoResp : Except TransportError (List GeoHit))
    (epaResp : Except TransportError Json) (usgsResp : Except TransportError String)
    (rep : ReportResponse) (f : Facility)
    (hrep : build_report dist dir fmt address radius_miles geoResp epaResp usgsResp = .ok rep)
    (hf : f ∈ rep.facilities) :
    f.distance_miles ≤ rep.radius_miles := by
  obtain ⟨geo, epa, -, -, hrepEq⟩ := build_report_ok_elim hrep
  subst hrepEq
  simp only [mergeAndRank, List.mem_mergeSort] at hf
  exact processRecords_distance_le dist dir fmt geo.latitude geo.longitude radius_miles _ _ f hf

/-- C5: when the geocoding provider returns zero matches for the
cleaned address (which presupposes the cleaned address was non-empty
and the provider was queried), `build_report` fails with the 404
`GeocodeNotFound` error and produces no report value. -/
theorem geocode_zero_matches_fails (dist : ℚ → ℚ → ℚ → ℚ → ℚ)
    (dir : ℚ → ℚ → ℚ → ℚ → String) (fmt : ℚ → String)
    (address : String) (radius_miles : ℚ)
    (epaResp : Except TransportError Json) (usgsResp : Except TransportError String)
    (h : strip_unit address ≠ "") :
    build_report dist dir fmt address radius_miles (.ok []) epaResp usgsResp
      = .error (.http ⟨404, "Could not geocode address: " ++ strip_unit address⟩) := by
  unfold build_report
  have hg : geocode_address address (.ok ([] : List GeoHit))
      = .error (.http ⟨404, "Could not geocode address: " ++ strip_unit address⟩) := by
    simp only [geocode_address]
    rw [if_neg h]
  rw [hg]

/-- C10: the address field of every successful report is the cleaned
(unit-stripped) address, and cleaning can differ from the caller's
original query address. -/
theorem report_address_is_cleaned :
    (∀ dist dir fmt address radius_miles geoResp epaResp usgsResp
        (rep : ReportResponse),
        build_report dist dir fmt address radius_miles geoResp epaResp usgsResp = .ok rep →
        rep.address = strip_unit address)
    ∧ strip_unit "123 Main St, Suite 200, Austin, TX" ≠ "123 Main St, Suite 200, Austin, TX" := by
  constructor
  · intro dist dir fmt address radius_miles geoResp epaResp usgsResp rep hrep
    obtain ⟨geo, epa, hg, -, hrepEq⟩ := build_report_ok_elim hrep
    subst hrepEq
    exact (geocode_ok_elim hg).1
  · decide

/-! ## Concrete witness inputs

Computable instantiations of the pipeline parameters (a constant
distance of 1 mile, a constant bearing, a constant float rendering)
and small provider responses, used to exhibit the hypotheses of the
claim theorems at concrete inputs. -/

/-- A concrete distance function for witnesses. -/
def wDist : ℚ → ℚ → ℚ → ℚ → ℚ := fun _ _ _ _ => 1

/-- A concrete bearing function for witnesses. -/
def wDir : ℚ → ℚ → ℚ → ℚ → String := fun _ _ _ _ => "N"

/-- A concrete float rendering for witnesses. -/
def wFmt : ℚ → String := fun _ => "0.0"

/-- A concrete EPA ECHO facility row. -/
def wEpaRow : Json :=
  .obj [("Lat83", .num 30), ("Long83", .num (-97)),
        ("FacName", .str "Plant"), ("RegistryID", .str "R1")]

/-- A concrete well-formed EPA ECHO body containing `wEpaRow`. -/
def wEpaBody : Json := .obj [("Results", .obj [("Facilities", .arr [wEpaRow])])]

/-- The facility that the pipeline builds from `wEpaRow` under
`wDist`/`wDir`. -/
def wFacility : Facility := ⟨"Plant", "R1", 30, -97, 1, "N", "EPA_ECHO"⟩

/-- The report built from the witness inputs. -/
def wReport : ReportResponse := ⟨"A St", 30, -97, 3, 1, [wFacility]⟩

/-- The report built from the suite-address witness inputs (both
adapters down, so no facilities). -/
def wReportSuite : ReportResponse := ⟨"123 Main St,, Austin, TX", 30, -97, 3, 0, []⟩

/-- Witness for C1: a concrete successful report containing a
facility, at which the radius invariant is instantiated. -/
theorem report_radius_invariant_witness :
    build_report wDist wDir wFmt "A St" 3 (.ok [⟨30, -97, "A St, TX"⟩])
      (.ok wEpaBody) (.error .timeout) = .ok wReport
    ∧ wFacility ∈ wReport.facilities
    ∧ wFacility.distance_miles ≤ wReport.radius_miles := by
  have h1 : build_report wDist wDir wFmt "A St" 3 (.ok [⟨30, -97, "A St, TX"⟩])
      (.ok wEpaBody) (.error .timeout)
      = .ok ⟨"A St", 30, -97, 3, (List.mergeSort [wFacility] facilityLe).length,
             List.mergeSort [wFacility] facilityLe⟩ := rfl
  rw [List.mergeSort_singleton] at h1
  have hmem : wFacility ∈ wReport.facilities := List.mem_singleton.mpr rfl
  exact ⟨h1, hmem,
    report_radius_invariant wDist wDir wFmt "A St" 3 (.ok [⟨30, -97, "A St, TX"⟩])
      (.ok wEpaBody) (.error .timeout) wReport wFacility h1 hmem⟩

/-- Witness for C5: a concrete non-empty cleaned address at which the
zero-matches failure is instantiated. -/
theorem geocode_zero_matches_fails_witness :
    strip_unit "1600 Pennsylvania Ave NW" ≠ ""
    ∧ build_report wDist wDir wFmt "1600 Pennsylvania Ave NW" 3 (.ok [])
        (.error .timeout) (.error .timeout)
      = .error (.http ⟨404, "Could not geocode address: "
          ++ strip_unit "1600 Pennsylvania Ave NW"⟩) :=
  ⟨by decide,
   geocode_zero_matches_fails wDist wDir wFmt "1600 Pennsylvania Ave NW" 3
     (.error .timeout) (.error .timeout) (by decide)⟩

/-- Witness for C10: a concrete successful report for an address with
a suite qualifier, whose address field is the cleaned form. -/
theorem report_address_is_cleaned_witness :
    build_report wDist wDir wFmt "123 Main St, Suite 200, Austin, TX" 3
      (.ok [⟨30, -97, "Austin"⟩]) (.error .timeout) (.error .timeout) = .ok wReportSuite
    ∧ wReportSuite.address = strip_unit "123 Main St, Suite 200, Austin, TX" := by
  have h1 : build_report wDist wDir wFmt "123 Main St, Suite 200, Austin, TX" 3
      (.ok [⟨30, -97, "Austin"⟩]) (.error .timeout) (.error .timeout)
      = .ok ⟨"123 Main St,, Austin, TX", 30, -97, 3,
             (List.mergeSort [] facilityLe).length, List.mergeSort [] facilityLe⟩ := rfl
  rw [List.mergeSort_nil] at h1
  exact ⟨h1,
    report_address_is_cleaned.1 wDist wDir wFmt "123 Main St, Suite 200, Austin, TX" 3
      (.ok [⟨30, -97, "Austin"⟩]) (.error .timeout) (.error .timeout) wReportSuite h1⟩

/-- The sort comparison on facility distances is transitive. -/
lemma facilityLe_trans (a b c : Facility)
    (h1 : facilityLe a b) (h2 : facilityLe b c) : facilityLe a c := by
  simp only [facilityLe, decide_eq_true_eq] at h1 h2 ⊢
  exact le_trans h1 h2

/-- The sort comparison on facility distances is total. -/
lemma facilityLe_total (a b : Facility) : facilityLe a b || facilityLe b a := by
  simp only [facilityLe, Bool.or_eq_true, decide_eq_true_eq]
  exact le_total a.distance_miles b.distance_miles

/-- C7: the facilities of every report are sorted non-decreasing by
`distance_miles`, and the sort is stable — facilities with any given
distance appear in exactly the order they had in the deduplicated,
radius-filtered list (`preFacilities`). -/
theorem report_sorted_stable (dist : ℚ → ℚ → ℚ → ℚ → ℚ)
    (dir : ℚ → ℚ → ℚ → ℚ → String) (fmt : ℚ → String)
    (address : String) (radius_miles : ℚ)
    (geoResp : Except TransportError (List GeoHit))
    (epaResp : Except TransportError Json) (usgsResp : Except TransportError String)
    (rep : ReportResponse)
    (hrep : build_report dist dir fmt address radius_miles geoResp epaResp usgsResp = .ok rep) :
    List.Pairwise (fun f g : Facility => f.distance_miles ≤ g.distance_miles) rep.facilities
    ∧ ∀ q : ℚ,
        rep.facilities.filter (fun f => f.distance_miles == q)
          = (preFacilities dist dir fmt address radius_miles geoResp epaResp usgsResp).filter
              (fun f => f.distance_miles == q) := by
  obtain ⟨geo, epa, hg, hf, hrepEq⟩ := build_report_ok_elim hrep
  have hpre : preFacilities dist dir fmt address radius_miles geoResp epaResp usgsResp
      = processRecords dist dir fmt geo.latitude geo.longitude radius_miles
          (epa ++ fetch_usgs usgsResp) [] := by
    unfold preFacilities
    rw [hg, hf]
  subst hrepEq
  have hfac : (ReportResponse.mk geo.cleaned_address geo.latitude geo.longitude radius_miles
      (mergeAndRank dist dir fmt geo.latitude geo.longitude radius_miles
        (epa ++ fetch_usgs usgsResp)).length
      (mergeAndRank dist dir fmt geo.latitude geo.longitude radius_miles
        (epa ++ fetch_usgs usgsResp))).facilities
      = List.mergeSort (processRecords dist dir fmt geo.latitude geo.longitude radius_miles
          (epa ++ fetch_usgs usgsResp) []) facilityLe := rfl
  rw [hfac, hpre]
  set l := processRecords dist dir fmt geo.latitude geo.longitude radius_miles
    (epa ++ fetch_usgs usgsResp) [] with hl
  constructor
  · exact (List.sorted_mergeSort facilityLe_trans facilityLe_total l).imp
      (fun h => by simpa [facilityLe, decide_eq_true_eq] using h)
  · intro q
    set p : Facility → Bool := fun f => f.distance_miles == q with hp
    have hmemq : ∀ f ∈ l.filter p, p f := fun f hfmem => List.of_mem_filter hfmem
    have hpair : (l.filter p).Pairwise (fun a b => facilityLe a b = true) := by
      refine List.pairwise_of_forall_mem_list ?_
      intro a ha b hb
      have ha2 : a.distance_miles = q := by simpa [hp] using hmemq a ha
      have hb2 : b.distance_miles = q := by simpa [hp] using hmemq b hb
      simp [facilityLe, ha2, hb2]
    have hsub : List.Sublist (l.filter p) (List.mergeSort l facilityLe) :=
      List.sublist_mergeSort facilityLe_trans facilityLe_total hpair (List.filter_sublist l)
    have hself : (l.filter p).filter p = l.filter p :=
      List.filter_eq_self.mpr hmemq
    have hsub2 : List.Sublist (l.filter p) ((List.mergeSort l facilityLe).filter p) := by
      have := hsub.filter p
      rwa [hself] at this
    have hperm : List.Perm ((List.mergeSort l facilityLe).filter p) (l.filter p) :=
      (List.mergeSort_perm l facilityLe).filter p
    exact (hsub2.eq_of_length hperm.length_eq.symm).symm

/-- Witness for C7: a concrete successful report at which sortedness
and stability are instantiated. -/
theorem report_sorted_stable_witness :
    build_report wDist wDir wFmt "A St" 3 (.ok [⟨30, -97, "A St, TX"⟩])
      (.ok wEpaBody) (.error .timeout) = .ok wReport
    ∧ (List.Pairwise (fun f g : Facility => f.distance_miles ≤ g.distance_miles)
        wReport.facilities
      ∧ ∀ q : ℚ,
          wReport.facilities.filter (fun f => f.distance_miles == q)
            = (preFacilities wDist wDir wFmt "A St" 3 (.ok [⟨30, -97, "A St, TX"⟩])
                (.ok wEpaBody) (.error .timeout)).filter
                (fun f => f.distance_miles == q)) := by
  have h1 : build_report wDist wDir wFmt "A St" 3 (.ok [⟨30, -97, "A St, TX"⟩])
      (.ok wEpaBody) (.error .timeout)
      = .ok ⟨"A St", 30, -97, 3, (List.mergeSort [wFacility] facilityLe).length,
             List.mergeSort [wFacility] facilityLe⟩ := rfl
  rw [List.mergeSort_singleton] at h1
  exact ⟨h1,
    report_sorted_stable wDist wDir wFmt "A St" 3 (.ok [⟨30, -97, "A St, TX"⟩])
      (.ok wEpaBody) (.error .timeout) wReport h1⟩

/-- Rounding half to even moves a value by at most one half. -/
lemma pyRoundInt_abs_le (x : ℝ) : |(pyRoundInt x : ℝ) - x| ≤ 1 / 2 := by
  unfold pyRoundInt
  split_ifs with h1 h2
  · rw [abs_sub_comm, Int.self_sub_floor, h1, abs_of_pos one_half_pos]
  · have h4 : ((⌊x⌋ + 1 : ℤ) : ℝ) - x = 1 / 2 := by
      push_cast
      linarith [Int.floor_add_fract x, h1]
    rw [h4, abs_of_pos one_half_pos]
  · rw [abs_sub_comm]
    exact abs_sub_round x

/-- Rounding at `n` decimal digits stays inside any enclosing
interval with integer endpoints. -/
lemma pyRoundTo_bounds (n : ℕ) (x : ℝ) (lo hi : ℤ)
    (h1 : (lo : ℝ) ≤ x) (h2 : x ≤ (hi : ℝ)) :
    (lo : ℝ) ≤ pyRoundTo n x ∧ pyRoundTo n x ≤ (hi : ℝ) := by
  have hpow : (0 : ℝ) < 10 ^ n := by positivity
  have habs := abs_le.mp (pyRoundInt_abs_le (x * 10 ^ n))
  have hup : pyRoundInt (x * 10 ^ n) ≤ hi * 10 ^ n := by
    have hr : (pyRoundInt (x * 10 ^ n) : ℝ) < ((hi * 10 ^ n : ℤ) : ℝ) + 1 := by
      have hx : x * 10 ^ n ≤ (hi : ℝ) * 10 ^ n :=
        mul_le_mul_of_nonneg_right h2 (le_of_lt hpow)
      push_cast
      linarith [habs.2]
    exact Int.lt_add_one_iff.mp (by exact_mod_cast hr)
  have hdown : lo * 10 ^ n ≤ pyRoundInt (x * 10 ^ n) := by
    have hr : ((lo * 10 ^ n : ℤ) : ℝ) - 1 < (pyRoundInt (x * 10 ^ n) : ℝ) := by
      have hx : (lo : ℝ) * 10 ^ n ≤ x * 10 ^ n :=
        mul_le_mul_of_nonneg_right h1 (le_of_lt hpow)
      push_cast
      linarith [habs.1]
    have := Int.lt_add_one_iff.mp (by exact_mod_cast (sub_lt_iff_lt_add.mp hr) : lo * 10 ^ n < pyRoundInt (x * 10 ^ n) + 1)
    exact this
  constructor
  · rw [pyRoundTo, le_div_iff hpow]
    exact_mod_cast hdown
  · rw [pyRoundTo, div_le_iff hpow]
    exact_mod_cast hup

/-- A clamped value lies in the clamping interval. -/
lemma clampR_mem (x lo hi : ℝ) (h : lo ≤ hi) :
    lo ≤ clampR x lo hi ∧ clampR x lo hi ≤ hi :=
  ⟨le_min (le_max_right _ _) h, min_le_right _ _⟩

/-- C8: for valid inputs, `_bounding_box` computes a latitude delta of
`r/69` degrees and a longitude delta of `r/(69·cos lat)` degrees with
a 180° fallback when `cos lat ≤ 1e-6`, and its west/south/east/north
outputs are clamped into (and lie in) the valid longitude range
[-180, 180] and latitude range [-90, 90]; the source additionally
rounds each output to 6 decimal places, which keeps the ranges. -/
theorem bounding_box_spec_conformance (lat lon radius_miles : ℝ)
    (h1 : -90 ≤ lat) (h2 : lat ≤ 90) (h3 : -180 ≤ lon) (h4 : lon ≤ 180)
    (h5 : 0 < radius_miles) :
    bounding_box lat lon radius_miles
      = (pyRoundTo 6 (clampR (lon - lonDeltaSpec lat radius_miles) (-180) 180),
         pyRoundTo 6 (clampR (lat - radius_miles / 69) (-90) 90),
         pyRoundTo 6 (clampR (lon + lonDeltaSpec lat radius_miles) (-180) 180),
         pyRoundTo 6 (clampR (lat + radius_miles / 69) (-90) 90))
    ∧ (-180 ≤ (bounding_box lat lon radius_miles).1
        ∧ (bounding_box lat lon radius_miles).1 ≤ 180)
    ∧ (-90 ≤ (bounding_box lat lon radius_miles).2.1
        ∧ (bounding_box lat lon radius_miles).2.1 ≤ 90)
    ∧ (-180 ≤ (bounding_box lat lon radius_miles).2.2.1
        ∧ (bounding_box lat lon radius_miles).2.2.1 ≤ 180)
    ∧ (-90 ≤ (bounding_box lat lon radius_miles).2.2.2
        ∧ (bounding_box lat lon radius_miles).2.2.2 ≤ 90) := by
  have hdelta : (if 1e-6 < Real.cos (radians lat)
        then radius_miles / (69 * Real.cos (radians lat)) else (180 : ℝ))
      = lonDeltaSpec lat radius_miles := by
    unfold lonDeltaSpec
    by_cases hc : 1e-6 < Real.cos (radians lat)
    · rw [if_pos hc, if_neg (not_le.mpr hc)]
    · rw [if_neg hc, if_pos (not_lt.mp hc)]
  have hdpos : 0 < lonDeltaSpec lat radius_miles := by
    unfold lonDeltaSpec
    split_ifs with hc
    · norm_num
    · have hcpos : (0 : ℝ) < Real.cos (radians lat) :=
        lt_trans (by norm_num) (not_le.mp hc)
      exact div_pos h5 (by positivity)
  have hrpos : 0 < radius_miles / 69 := by positivity
  have hwest : clampR (lon - lonDeltaSpec lat radius_miles) (-180) 180
      = max (lon - lonDeltaSpec lat radius_miles) (-180) := by
    unfold clampR
    exact min_eq_left (max_le (by linarith) (by norm_num))
  have hsouth : clampR (lat - radius_miles / 69) (-90) 90
      = max (lat - radius_miles / 69) (-90) := by
    unfold clampR
    exact min_eq_left (max_le (by linarith) (by norm_num))
  have heast : clampR (lon + lonDeltaSpec lat radius_miles) (-180) 180
      = min (lon + lonDeltaSpec lat radius_miles) 180 := by
    unfold clampR
    rw [max_eq_left (by linarith)]
  have hnorth : clampR (lat + radius_miles / 69) (-90) 90
      = min (lat + radius_miles / 69) 90 := by
    unfold clampR
    rw [max_eq_left (by linarith)]
  have heq : bounding_box lat lon radius_miles
      = (pyRoundTo 6 (clampR (lon - lonDeltaSpec lat radius_miles) (-180) 180),
         pyRoundTo 6 (clampR (lat - radius_miles / 69) (-90) 90),
         pyRoundTo 6 (clampR (lon + lonDeltaSpec lat radius_miles) (-180) 180),
         pyRoundTo 6 (clampR (lat + radius_miles / 69) (-90) 90)) := by
    simp only [bounding_box]
    rw [hdelta, hwest, hsouth, heast, hnorth]
  have hbw : ((-180 : ℤ) : ℝ) ≤ pyRoundTo 6 (clampR (lon - lonDeltaSpec lat radius_miles) (-180) 180)
      ∧ pyRoundTo 6 (clampR (lon - lonDeltaSpec lat radius_miles) (-180) 180) ≤ ((180 : ℤ) : ℝ) := by
    have hc := clampR_mem (lon - lonDeltaSpec lat radius_miles) (-180) 180 (by norm_num)
    exact pyRoundTo_bounds 6 _ (-180) 180 (by exact_mod_cast hc.1) (by exact_mod_cast hc.2)
  have hbs : ((-90 : ℤ) : ℝ) ≤ pyRoundTo 6 (clampR (lat - radius_miles / 69) (-90) 90)
      ∧ pyRoundTo 6 (clampR (lat - radius_miles / 69) (-90) 90) ≤ ((90 : ℤ) : ℝ) := by
    have hc := clampR_mem (lat - radius_miles / 69) (-90) 90 (by norm_num)
    exact pyRoundTo_bounds 6 _ (-90) 90 (by exact_mod_cast hc.1) (by exact_mod_cast hc.2)
  have hbe : ((-180 : ℤ) : ℝ) ≤ pyRoundTo 6 (clampR (lon + lonDeltaSpec lat radius_miles) (-180) 180)
      ∧ pyRoundTo 6 (clampR (lon + lonDeltaSpec lat radius_miles) (-180) 180) ≤ ((180 : ℤ) : ℝ) := by
    have hc := clampR_mem (lon + lonDeltaSpec lat radius_miles) (-180) 180 (by norm_num)
    exact pyRoundTo_bounds 6 _ (-180) 180 (by exact_mod_cast hc.1) (by exact_mod_cast hc.2)
  have hbn : ((-90 : ℤ) : ℝ) ≤ pyRoundTo 6 (clampR (lat + radius_miles / 69) (-90) 90)
      ∧ pyRoundTo 6 (clampR (lat + radius_miles / 69) (-90) 90) ≤ ((90 : ℤ) : ℝ) := by
    have hc := clampR_mem (lat + radius_miles / 69) (-90) 90 (by norm_num)
    exact pyRoundTo_bounds 6 _ (-90) 90 (by exact_mod_cast hc.1) (by exact_mod_cast hc.2)
  refine ⟨heq, ⟨?_, ?_⟩, ⟨?_, ?_⟩, ⟨?_, ?_⟩, ⟨?_, ?_⟩⟩
  · rw [heq]; exact_mod_cast hbw.1
  · rw [heq]; exact_mod_cast hbw.2
  · rw [heq]; exact_mod_cast hbs.1
  · rw [heq]; exact_mod_cast hbs.2
  · rw [heq]; exact_mod_cast hbe.1
  · rw [heq]; exact_mod_cast hbe.2
  · rw [heq]; exact_mod_cast hbn.1
  · rw [heq]; exact_mod_cast hbn.2

/-- Witness for C8: the bounding box conformance instantiated at the
equator with a 3-mile radius. -/
theorem bounding_box_spec_conformance_witness :
    bounding_box 0 0 3
      = (pyRoundTo 6 (clampR (0 - lonDeltaSpec 0 3) (-180) 180),
         pyRoundTo 6 (clampR (0 - 3 / 69) (-90) 90),
         pyRoundTo 6 (clampR (0 + lonDeltaSpec 0 3) (-180) 180),
         pyRoundTo 6 (clampR (0 + 3 / 69) (-90) 90))
    ∧ (-180 ≤ (bounding_box 0 0 3).1 ∧ (bounding_box 0 0 3).1 ≤ 180)
    ∧ (-90 ≤ (bounding_box 0 0 3).2.1 ∧ (bounding_box 0 0 3).2.1 ≤ 90)
    ∧ (-180 ≤ (bounding_box 0 0 3).2.2.1 ∧ (bounding_box 0 0 3).2.2.1 ≤ 180)
    ∧ (-90 ≤ (bounding_box 0 0 3).2.2.2 ∧ (bounding_box 0 0 3).2.2.2 ≤ 90) :=
  bounding_box_spec_conformance 0 0 3 (by norm_num) (by norm_num) (by norm_num)
    (by norm_num) (by norm_num)

/-! ## Deduplication: the pipe-joined key versus the spec's tuple key

Python renders the dedup key as an f-string joined with `|`.  The
rendered registry ids, source tags and float reprs contain no `|`
(float reprs never do; the source tags are the literals `"EPA_ECHO"`
and `"USGS"`), under which the string key and the spec's tuple key
identify the same records. -/


/-- Splitting at a pipe is unambiguous when both left parts are
pipe-free. -/
lemma append_pipe_inj {b d : List Char} : ∀ {a c : List Char},
    '|' ∉ a → '|' ∉ c → a ++ '|' :: b = c ++ '|' :: d → a = c ∧ b = d := by
  intro a
  induction a with
  | nil =>
    intro c ha hc h
    cases c with
    | nil =>
      simp only [List.nil_append, List.cons.injEq] at h
      exact ⟨rfl, h.2⟩
    | cons x cs =>
      simp only [List.nil_append, List.cons_append, List.cons.injEq] at h
      exact absurd (by rw [h.1]; exact List.mem_cons_self x cs) hc
  | cons y ys ih =>
    intro c ha hc h
    cases c with
    | nil =>
      simp only [List.cons_append, List.nil_append, List.cons.injEq] at h
      exact absurd (by rw [← h.1]; exact List.mem_cons_self y ys) ha
    | cons x cs =>
      simp only [List.cons_append, List.cons.injEq] at h
      have ha2 : '|' ∉ ys := fun hm => ha (List.mem_cons_of_mem _ hm)
      have hc2 : '|' ∉ cs := fun hm => hc (List.mem_cons_of_mem _ hm)
      obtain ⟨e1, e2⟩ := ih ha2 hc2 h.2
      exact ⟨by rw [h.1, e1], e2⟩

/-- Splitting the four pipe-joined fields of a coordinate key is
unambiguous when the three rightmost fields are pipe-free (the name
may contain pipes). -/
lemma four_pipe_inj {n A B s n2 A2 B2 s2 : List Char}
    (hA : '|' ∉ A) (hB : '|' ∉ B) (hs : '|' ∉ s)
    (hA2 : '|' ∉ A2) (hB2 : '|' ∉ B2) (hs2 : '|' ∉ s2)
    (h : n ++ '|' :: (A ++ '|' :: (B ++ '|' :: s))
        = n2 ++ '|' :: (A2 ++ '|' :: (B2 ++ '|' :: s2))) :
    n = n2 ∧ A = A2 ∧ B = B2 ∧ s = s2 := by
  have h1 : s.reverse ++ '|' :: (B.reverse ++ '|' :: (A.reverse ++ '|' :: n.reverse))
      = s2.reverse ++ '|' :: (B2.reverse ++ '|' :: (A2.reverse ++ '|' :: n2.reverse)) := by
    have h2 := congrArg List.reverse h
    simpa [List.reverse_append] using h2
  obtain ⟨es, h3⟩ := append_pipe_inj (by simpa using hs) (by simpa using hs2) h1
  obtain ⟨eB, h4⟩ := append_pipe_inj (by simpa using hB) (by simpa using hB2) h3
  obtain ⟨eA, h5⟩ := append_pipe_inj (by simpa using hA) (by simpa using hA2) h4
  exact ⟨List.reverse_injective h5, List.reverse_injective eA,
    List.reverse_injective eB, List.reverse_injective es⟩

/-- Character list of an id-branch dedup key. -/
lemma dedup_key_data_id (fmt : ℚ → String) (r : RawRecord)
    (hb : r.registry_id ≠ "" ∧ r.registry_id ≠ "N/A") :
    (dedup_key fmt r).data = r.registry_id.data ++ '|' :: r.source.data := by
  unfold dedup_key
  rw [if_pos hb]
  simp

/-- Character list of a coordinate-branch dedup key. -/
lemma dedup_key_data_coord (fmt : ℚ → String) (r : RawRecord)
    (hb : ¬(r.registry_id ≠ "" ∧ r.registry_id ≠ "N/A")) :
    (dedup_key fmt r).data
      = r.name.data ++ '|' :: ((fmt r.latitude).data
          ++ '|' :: ((fmt r.longitude).data ++ '|' :: r.source.data)) := by
  unfold dedup_key
  rw [if_neg hb]
  simp

/-- The pipe-joined string key of the source distinguishes records
exactly as the spec's tuple key does, provided the rendered fields
(registry id, source tag, float repr) are pipe-free and the float
rendering is injective. -/
lemma dedup_key_eq_iff_specKey (fmt : ℚ → String) (hinj : Function.Injective fmt)
    (hpf : ∀ q, '|' ∉ (fmt q).data) (r r' : RawRecord)
    (hr : '|' ∉ r.registry_id.data) (hr' : '|' ∉ r'.registry_id.data)
    (hs : '|' ∉ r.source.data) (hs' : '|' ∉ r'.source.data) :
    dedup_key fmt r = dedup_key fmt r' ↔ specKey r = specKey r' := by
  by_cases hb : r.registry_id ≠ "" ∧ r.registry_id ≠ "N/A"
  · by_cases hb' : r'.registry_id ≠ "" ∧ r'.registry_id ≠ "N/A"
    · rw [String.ext_iff, dedup_key_data_id fmt r hb, dedup_key_data_id fmt r' hb']
      unfold specKey
      rw [if_pos hb, if_pos hb']
      constructor
      · intro h
        obtain ⟨e1, e2⟩ := append_pipe_inj hr hr' h
        simp only [Sum.inl.injEq, Prod.mk.injEq]
        exact ⟨String.ext e1, String.ext e2⟩
      · intro h
        simp only [Sum.inl.injEq, Prod.mk.injEq] at h
        rw [h.1, h.2]
    · refine iff_of_false ?_ ?_
      · intro h
        have hcnt := congrArg (fun l : List Char => l.count '|') (congrArg String.data h)
        simp only [dedup_key_data_id fmt r hb, dedup_key_data_coord fmt r' hb',
          List.count_append, List.count_cons_self,
          List.count_eq_zero.mpr hr, List.count_eq_zero.mpr hs,
          List.count_eq_zero.mpr hs', List.count_eq_zero.mpr (hpf r'.latitude),
          List.count_eq_zero.mpr (hpf r'.longitude)] at hcnt
        omega
      · unfold specKey
        rw [if_pos hb, if_neg hb']
        simp
  · by_cases hb' : r'.registry_id ≠ "" ∧ r'.registry_id ≠ "N/A"
    · refine iff_of_false ?_ ?_
      · intro h
        have hcnt := congrArg (fun l : List Char => l.count '|') (congrArg String.data h)
        simp only [dedup_key_data_coord fmt r hb, dedup_key_data_id fmt r' hb',
          List.count_append, List.count_cons_self,
          List.count_eq_zero.mpr hr', List.count_eq_zero.mpr hs,
          List.count_eq_zero.mpr hs', List.count_eq_zero.mpr (hpf r.latitude),
          List.count_eq_zero.mpr (hpf r.longitude)] at hcnt
        omega
      · unfold specKey
        rw [if_neg hb, if_pos hb']
        simp
    · rw [String.ext_iff, dedup_key_data_coord fmt r hb, dedup_key_data_coord fmt r' hb']
      unfold specKey
      rw [if_neg hb, if_neg hb']
      constructor
      · intro h
        obtain ⟨en, eA, eB, es⟩ := four_pipe_inj (hpf r.latitude) (hpf r.longitude) hs
          (hpf r'.latitude) (hpf r'.longitude) hs' h
        simp only [Sum.inr.injEq, Prod.mk.injEq]
        exact ⟨String.ext en, hinj (String.ext eA), hinj (String.ext eB), String.ext es⟩
      · intro h
        simp only [Sum.inr.injEq, Prod.mk.injEq] at h
        rw [h.1, h.2.1, h.2.2.1, h.2.2.2]

/-- C2: deduplication in the report pipeline uses the composite key —
`(external_id, source)` for a present, non-"N/A" external id,
otherwise `(name, latitude, longitude, source)` — over the
concatenation of Adapter A's records followed by Adapter B's, first
occurrence winning.  First conjunct: the source's pipe-joined string
key separates records exactly as the spec's tuple key.  Second
conjunct: two records with the same non-"N/A" external id and same
source collapse to the single facility built from the first (the
EPA-side) record.  Third conjunct: two records with external id "N/A"
but different coordinates both survive. -/
theorem dedup_composite_key (fmt : ℚ → String)
    (hinj : Function.Injective fmt) (hpf : ∀ q, '|' ∉ (fmt q).data) :
    (∀ r r' : RawRecord,
        '|' ∉ r.registry_id.data → '|' ∉ r'.registry_id.data →
        '|' ∉ r.source.data → '|' ∉ r'.source.data →
        (dedup_key fmt r = dedup_key fmt r' ↔ specKey r = specKey r'))
    ∧ (∀ (dist : ℚ → ℚ → ℚ → ℚ → ℚ) (dir : ℚ → ℚ → ℚ → ℚ → String)
        (lat lon radius : ℚ) (r1 r2 : RawRecord),
        r1.registry_id ≠ "" → r1.registry_id ≠ "N/A" →
        r2.registry_id = r1.registry_id → r2.source = r1.source →
        dist lat lon r1.latitude r1.longitude ≤ radius →
        mergeAndRank dist dir fmt lat lon radius ([r1] ++ [r2])
          = [⟨r1.name, r1.registry_id, r1.latitude, r1.longitude,
              dist lat lon r1.latitude r1.longitude,
              dir lat lon r1.latitude r1.longitude, r1.source⟩])
    ∧ (∀ (dist : ℚ → ℚ → ℚ → ℚ → ℚ) (dir : ℚ → ℚ → ℚ → ℚ → String)
        (lat lon radius : ℚ) (r1 r2 : RawRecord),
        r1.registry_id = "N/A" → r2.registry_id = "N/A" →
        (r1.latitude, r1.longitude) ≠ (r2.latitude, r2.longitude) →
        '|' ∉ r1.source.data → '|' ∉ r2.source.data →
        dist lat lon r1.latitude r1.longitude ≤ radius →
        dist lat lon r2.latitude r2.longitude ≤ radius →
        (⟨r1.name, r1.registry_id, r1.latitude, r1.longitude,
            dist lat lon r1.latitude r1.longitude,
            dir lat lon r1.latitude r1.longitude, r1.source⟩ : Facility)
          ∈ mergeAndRank dist dir fmt lat lon radius ([r1] ++ [r2])
        ∧ (⟨r2.name, r2.registry_id, r2.latitude, r2.longitude,
            dist lat lon r2.latitude r2.longitude,
            dir lat lon r2.latitude r2.longitude, r2.source⟩ : Facility)
          ∈ mergeAndRank dist dir fmt lat lon radius ([r1] ++ [r2])
        ∧ (mergeAndRank dist dir fmt lat lon radius ([r1] ++ [r2])).length = 2) := by
  refine ⟨?_, ?_, ?_⟩
  · intro r r' h1 h2 h3 h4
    exact dedup_key_eq_iff_specKey fmt hinj hpf r r' h1 h2 h3 h4
  · intro dist dir lat lon radius r1 r2 h1 h2 h3 h4 hd
    have hk : dedup_key fmt r2 = dedup_key fmt r1 := by
      unfold dedup_key
      rw [h3, h4, if_pos (⟨h1, h2⟩ : r1.registry_id ≠ "" ∧ r1.registry_id ≠ "N/A"),
        if_pos (⟨h1, h2⟩ : r1.registry_id ≠ "" ∧ r1.registry_id ≠ "N/A")]
    have hpr : processRecords dist dir fmt lat lon radius [r1, r2] []
        = [⟨r1.name, r1.registry_id, r1.latitude, r1.longitude,
            dist lat lon r1.latitude r1.longitude,
            dir lat lon r1.latitude r1.longitude, r1.source⟩] := by
      simp only [processRecords]
      rw [if_neg (List.not_mem_nil (dedup_key fmt r1)), if_neg (not_lt.mpr hd)]
      rw [if_pos (by rw [hk]; exact List.mem_singleton.mpr rfl)]
    unfold mergeAndRank
    rw [List.singleton_append, hpr, List.mergeSort_singleton]
  · intro dist dir lat lon radius r1 r2 h1 h2 hne hs1 hs2 hd1 hd2
    have hbr1 : ¬(r1.registry_id ≠ "" ∧ r1.registry_id ≠ "N/A") := by
      rw [h1]; simp
    have hbr2 : ¬(r2.registry_id ≠ "" ∧ r2.registry_id ≠ "N/A") := by
      rw [h2]; simp
    have hr1pf : '|' ∉ r1.registry_id.data := by rw [h1]; decide
    have hr2pf : '|' ∉ r2.registry_id.data := by rw [h2]; decide
    have hkne : dedup_key fmt r2 ≠ dedup_key fmt r1 := by
      rw [ne_eq, dedup_key_eq_iff_specKey fmt hinj hpf r2 r1 hr2pf hr1pf hs2 hs1]
      unfold specKey
      rw [if_neg hbr2, if_neg hbr1]
      intro heq
      simp only [Sum.inr.injEq, Prod.mk.injEq] at heq
      exact hne (by rw [heq.2.1, heq.2.2.1])
    have hpr : processRecords dist dir fmt lat lon radius [r1, r2] []
        = [⟨r1.name, r1.registry_id, r1.latitude, r1.longitude,
            dist lat lon r1.latitude r1.longitude,
            dir lat lon r1.latitude r1.longitude, r1.source⟩,
           ⟨r2.name, r2.registry_id, r2.latitude, r2.longitude,
            dist lat lon r2.latitude r2.longitude,
            dir lat lon r2.latitude r2.longitude, r2.source⟩] := by
      simp only [processRecords]
      rw [if_neg (List.not_mem_nil (dedup_key fmt r1)), if_neg (not_lt.mpr hd1)]
      rw [if_neg (fun hmem => hkne (List.mem_singleton.mp hmem))]
      rw [if_neg (not_lt.mpr hd2)]
    unfold mergeAndRank
    rw [List.singleton_append, hpr]
    refine ⟨?_, ?_, ?_⟩
    · rw [List.mem_mergeSort]
      exact List.mem_cons_self _ _
    · rw [List.mem_mergeSort]
      exact List.mem_cons_of_mem _ (List.mem_cons_self _ _)
    · rw [List.length_mergeSort]
      rfl

/-- A concrete injective, pipe-free float rendering for witnesses
(stands in for Python's float `repr`, which is injective on floats and
never prints a pipe). -/
def qEnc (q : ℚ) : String := String.mk (List.replicate (Encodable.encode q) 'a')

/-- The witness rendering is injective. -/
lemma qEnc_injective : Function.Injective qEnc := by
  intro x y h
  have hlen := congrArg (fun s : String => s.data.length) h
  simp only [qEnc, List.length_replicate] at hlen
  exact Encodable.encode_injective hlen

/-- The witness rendering never prints a pipe. -/
lemma qEnc_pipe_free (q : ℚ) : '|' ∉ (qEnc q).data := by
  intro h
  have h2 : '|' ∈ List.replicate (Encodable.encode q) 'a' := h
  rw [List.mem_replicate] at h2
  exact absurd h2.2 (by decide)

/-- Witness for C2: the key equivalence and both dedup consequences
instantiated at concrete records. -/
theorem dedup_composite_key_witness :
    (dedup_key qEnc ⟨"A", "R1", 1, 2, "EPA_ECHO"⟩
        = dedup_key qEnc ⟨"B", "R1", 3, 4, "USGS"⟩
      ↔ specKey ⟨"A", "R1", 1, 2, "EPA_ECHO"⟩ = specKey ⟨"B", "R1", 3, 4, "USGS"⟩)
    ∧ mergeAndRank wDist wDir qEnc 0 0 3
        ([⟨"A", "R1", 1, 2, "EPA_ECHO"⟩] ++ [⟨"B", "R1", 5, 6, "EPA_ECHO"⟩])
        = [⟨"A", "R1", 1, 2, wDist 0 0 1 2, wDir 0 0 1 2, "EPA_ECHO"⟩]
    ∧ ((⟨"A", "N/A", 1, 2, wDist 0 0 1 2, wDir 0 0 1 2, "EPA_ECHO"⟩ : Facility)
          ∈ mergeAndRank wDist wDir qEnc 0 0 3
              ([⟨"A", "N/A", 1, 2, "EPA_ECHO"⟩] ++ [⟨"A", "N/A", 3, 4, "USGS"⟩])
        ∧ (⟨"A", "N/A", 3, 4, wDist 0 0 3 4, wDir 0 0 3 4, "USGS"⟩ : Facility)
          ∈ mergeAndRank wDist wDir qEnc 0 0 3
              ([⟨"A", "N/A", 1, 2, "EPA_ECHO"⟩] ++ [⟨"A", "N/A", 3, 4, "USGS"⟩])
        ∧ (mergeAndRank wDist wDir qEnc 0 0 3
              ([⟨"A", "N/A", 1, 2, "EPA_ECHO"⟩] ++ [⟨"A", "N/A", 3, 4, "USGS"⟩])).length = 2) :=
  ⟨(dedup_composite_key qEnc qEnc_injective qEnc_pipe_free).1
      ⟨"A", "R1", 1, 2, "EPA_ECHO"⟩ ⟨"B", "R1", 3, 4, "USGS"⟩
      (by decide) (by decide) (by decide) (by decide),
   (dedup_composite_key qEnc qEnc_injective qEnc_pipe_free).2.1 wDist wDir 0 0 3
      ⟨"A", "R1", 1, 2, "EPA_ECHO"⟩ ⟨"B", "R1", 5, 6, "EPA_ECHO"⟩
      (by decide) (by decide) rfl rfl (by decide),
   (dedup_composite_key qEnc qEnc_injective qEnc_pipe_free).2.2 wDist wDir 0 0 3
      ⟨"A", "N/A", 1, 2, "EPA_ECHO"⟩ ⟨"A", "N/A", 3, 4, "USGS"⟩
      rfl rfl (by decide) (by decide) (by decide) (by decide) (by decide)⟩
